import Mathlib

set_option autoImplicit false
set_option maxHeartbeats 1000000

/-
Shallow embedding of the chaseinvest-api repository (the `chase` package:
session.py, account.py, order.py, symbols.py, urls.py).

External I/O (the browser page driven by zendriver / playwright) is modelled
by explicit environment records: each `find`/`expect_response`/URL observation
the Python code performs is answered by a field of the environment, so every
routine becomes a deterministic function of its arguments and its environment.
Side effects on the page (clicks, keystrokes) are recorded in an event trace.
Python exceptions are modelled with `Except PyErr`.
-/

/-- Kinds of Python exceptions distinguished by the code's `except` clauses. -/
inductive PyErr where
  | timeout (msg : String)
  | key (k : String)
  | index
  | typeErr
  | attrErr
  | exc (msg : String)
deriving DecidableEq, Repr

/-- JSON values (Python objects decoded from intercepted response bodies). -/
inductive Json where
  | null : Json
  | bool : Bool → Json
  | num : Rat → Json
  | str : String → Json
  | arr : List Json → Json
  | obj : List (String × Json) → Json

/-- Does the character list `s` start with `pat`? -/
def chStarts : List Char → List Char → Bool
  | [], _ => true
  | _ :: _, [] => false
  | p :: ps, c :: cs => p == c && chStarts ps cs

/-- Does the character list `s` contain `pat` as a contiguous run? -/
def chContains : List Char → List Char → Bool
  | [], pat => pat.isEmpty
  | c :: rest, pat => chStarts pat (c :: rest) || chContains rest pat

/-- The Python substring operator `pat in s`. -/
def strContains (s pat : String) : Bool :=
  chContains s.data pat.data

/-- Python `d.get(k)` on a JSON object: the stored value when the key is
present (even when that value is JSON null), `none` when absent. -/
def jsonGet : Json → String → Option Json
  | .obj fields, k => fields.lookup k
  | _, _ => none

/-- Python `d.get(k, default)` on a JSON object. -/
def jsonGetD (j : Json) (k : String) (d : Json) : Json :=
  (jsonGet j k).getD d

/-- Python `==` between a JSON value and a Python string: true exactly for an
equal JSON string. -/
def jsonEqStr : Json → String → Bool
  | .str s, t => s == t
  | _, _ => false

/-- Python `bool(x)` on a JSON value. -/
def pyBool : Json → Bool
  | .null => false
  | .bool b => b
  | .num n => n != 0
  | .str s => s != ""
  | .arr xs => !xs.isEmpty
  | .obj fs => !fs.isEmpty

/-- Python `float(x)` on a JSON value: numbers pass through, booleans coerce
to 0/1, anything else raises TypeError (numeric strings are not modelled). -/
def pyFloat : Json → Except PyErr Rat
  | .num n => .ok n
  | .bool b => .ok (if b then 1 else 0)
  | _ => .error .typeErr

/- URL constants from urls.py. In the source each is a zero-argument function
returning the constant; they are modelled as plain constants, and the
account-id variants as functions of the account id. -/

/-- urls.py login_page(). -/
def login_page : String :=
  "https://secure05c.chase.com/web/auth/#/logon/logon/chaseOnline"

/-- urls.py landing_page(). -/
def landing_page : String :=
  "https://secure.chase.com/web/auth/dashboard#/dashboard/overview"

/-- urls.py opt_out_verification_page(). -/
def opt_out_verification_page : String :=
  "https://secure05c.chase.com/web/auth/#/logon/recognizeUser/esasiOptout"

/-- urls.py account_info(). Note it returns a single string; account.py line
53 nevertheless subscripts the result (`urls[0]`), passing the first character
"h" to get_investment_json as the URL pattern. -/
def account_info : String :=
  "https://secure.chase.com/svc/rl/accounts/secure/v1/dashboard/module/list"

/-- urls.py holdings_json(). -/
def holdings_json : String :=
  "https://secure.chase.com/svc/wr/dwm/secure/gateway/investments/servicing/inquiry-maintenance/digital-investment-positions/v2/positions"

/-- urls.py order_page(). It takes no parameters. -/
def order_page : String :=
  "https://secure.chase.com/web/auth/dashboard#/dashboard/oi-trade/equity/entry"

/-- urls.py order_status(account_id). -/
def order_status (account_id : String) : String :=
  "https://secure.chase.com/web/auth/dashboard#/dashboard/trade/order/status;ai=" ++ account_id ++ ";orderStatus=ALL"

/-- urls.py order_info(). -/
def order_info : String :=
  "https://secure.chase.com/svc/wr/dwm/secure/gateway/investments/servicing/inquiry-maintenance/digital-trade-orders/v1/summaries"

/-- urls.py account_holdings(account_id). -/
def account_holdings (account_id : String) : String :=
  "https://secure.chase.com/web/auth/dashboard#/dashboard/oi-portfolio/positions/render;ai=" ++ account_id

/- Structural equality on JSON values, modelling Python `==` between decoded
JSON objects (used for dictionary keys in get_account_connectors). -/

mutual

/-- Python `==` between two decoded JSON values (structural). -/
def Json.beq : Json → Json → Bool
  | .null, .null => true
  | .bool a, .bool b => a == b
  | .num a, .num b => a == b
  | .str a, .str b => a == b
  | .arr xs, .arr ys => Json.beqList xs ys
  | .obj xs, .obj ys => Json.beqFields xs ys
  | _, _ => false

/-- Elementwise `Json.beq` on lists. -/
def Json.beqList : List Json → List Json → Bool
  | [], [] => true
  | x :: xs, y :: ys => Json.beq x y && Json.beqList xs ys
  | _, _ => false

/-- Elementwise `Json.beq` on object fields. -/
def Json.beqFields : List (String × Json) → List (String × Json) → Bool
  | [], [] => true
  | (k, v) :: xs, (l, w) :: ys => k == l && Json.beq v w && Json.beqFields xs ys
  | _, _ => false

end

/-- Python dict keys must be hashable; decoded lists and dicts are not. -/
def jsonHashable : Json → Bool
  | .arr _ => false
  | .obj _ => false
  | _ => true

/-- Python `d[k] = v` on a dict represented as an insertion-ordered
association list: overwrite in place when the key is present (keeping the
original key object and position), append otherwise. -/
def dictInsert (d : List (Json × Json)) (k v : Json) : List (Json × Json) :=
  match d with
  | [] => [(k, v)]
  | (k0, v0) :: rest =>
    if Json.beq k0 k then (k0, v) :: rest else (k0, v0) :: dictInsert rest k v

/-- The loop of AllAccount.get_account_connectors (account.py lines 76-77 and
80-81): `account_dict[item["accountId"]] = [item["mask"]]` for each item.
Python evaluates the right-hand side first, so a missing "mask" raises before
a missing "accountId". -/
def connLoop : List Json → List (Json × Json) → Except PyErr (Option (List (Json × Json)))
  | [], acc => .ok (some acc)
  | item :: rest, acc =>
    match item with
    | .obj fields =>
      match fields.lookup "mask" with
      | none => .error (.key "mask")
      | some m =>
        match fields.lookup "accountId" with
        | none => .error (.key "accountId")
        | some k =>
          if jsonHashable k then connLoop rest (dictInsert acc k (.arr [m]))
          else .error .typeErr
    | _ => .error .typeErr

/-- AllAccount.get_account_connectors (account.py lines 62-83). The argument
is the stored all_account_info; Python None is modelled as Json.null.
Returns the connector dict, Python None (`.ok none`) when all_account_info is
None, or the propagated exception. Iterating a non-list payload in the for
loop is modelled as a type error. -/
def get_account_connectors (all_account_info : Json) :
    Except PyErr (Option (List (Json × Json))) :=
  match all_account_info with
  | .null => .ok none
  | .arr items => connLoop items []
  | .obj fields =>
    match fields.lookup "investmentAccountDetails" with
    | none => .error (.key "investmentAccountDetails")
    | some (.arr items) => connLoop items []
    | some _ => .error .typeErr
  | _ => .error .typeErr

/-- The attributes of an AccountDetails object that get_account_details
(re)assigns, with their dynamically-typed Python values modelled as Json.
The account id and the envelope are parameters of the functions below and are
never reassigned. -/
structure ADState where
  mask : Json
  nickname : Json
  detail_type : Json
  account_value : Json
  account_value_change : Json
  eda : Json
  ira : Json
  view_balance : Json
  prior_year_ira : Json
  show_xfer : Json

/-- The initial attribute values set by AccountDetails.__init__ (account.py
lines 203-212). -/
def initADState : ADState :=
  { mask := .str "", nickname := .str "", detail_type := .str "",
    account_value := .num (-1), account_value_change := .num (-1),
    eda := .str "", ira := .bool false, view_balance := .bool false,
    prior_year_ira := .bool false, show_xfer := .bool false }

/-- The assignment block run for an item whose accountId matches (account.py
lines 233-242). Assignments happen in source order, so a float() failure on
accountValue leaves mask, nickname and detail_type already overwritten. -/
def assignItem (item : Json) (s : ADState) : Except PyErr Unit × ADState :=
  let s1 : ADState :=
    { s with mask := jsonGetD item "mask" (.str ""),
             nickname := jsonGetD item "nickname" (.str ""),
             detail_type := jsonGetD item "detailType" (.str "") }
  match pyFloat (jsonGetD item "accountValue" (.num (-1))) with
  | .error e => (.error e, s1)
  | .ok av =>
    match pyFloat (jsonGetD item "accountValueChange" (.num (-1))) with
    | .error e => (.error e, { s1 with account_value := .num av })
    | .ok avc =>
      (.ok (),
       { mask := jsonGetD item "mask" (.str ""),
         nickname := jsonGetD item "nickname" (.str ""),
         detail_type := jsonGetD item "detailType" (.str ""),
         account_value := .num av,
         account_value_change := .num avc,
         eda := .bool (pyBool (jsonGetD item "eda" (.bool false))),
         ira := .bool (pyBool (jsonGetD item "ira" (.bool false))),
         view_balance := .bool (pyBool (jsonGetD item "viewBalance" (.bool false))),
         prior_year_ira := .bool (pyBool (jsonGetD item "priorYearIra" (.bool false))),
         show_xfer := .bool (pyBool (jsonGetD item "showXfer" (.bool false))) })

/-- Is a decoded JSON value Python None? Used for the `is None` guard of
account.py line 230. -/
def isNullJson : Json → Bool
  | .null => true
  | _ => false

/-- The item loop of AccountDetails.get_account_details (account.py lines
229-242). When an item is a dict whose accountId is missing or null, line 231
rebinds `item = item[0]`, which on a JSON object raises KeyError(0) (modelled
as `.key "0"`); `item.get` on a non-dict raises AttributeError. -/
def detailsLoop : List Json → String → ADState → Except PyErr Unit × ADState
  | [], _, s => (.ok (), s)
  | item :: rest, aid, s =>
    match item with
    | .obj _ =>
      match jsonGet item "accountId" with
      | none => (.error (.key "0"), s)
      | some v =>
        if isNullJson v then (.error (.key "0"), s)
        else if jsonEqStr v aid then
          match assignItem item s with
          | (.ok _, s1) => detailsLoop rest aid s1
          | (.error e, s1) => (.error e, s1)
        else detailsLoop rest aid s
    | _ => (.error .attrErr, s)

/-- AccountDetails.get_account_details (account.py lines 215-243): extract the
item list (directly when all_account_info is a list, else from its
"investmentAccountDetails" field) and run the item loop. Iterating a non-list
payload is modelled as a type error. -/
def get_account_details (all_account_info : Json) (account_id : String)
    (s : ADState) : Except PyErr Unit × ADState :=
  match (match all_account_info with
         | .arr items => Except.ok items
         | .obj fields =>
           match fields.lookup "investmentAccountDetails" with
           | some (.arr items) => Except.ok items
           | some _ => Except.error PyErr.typeErr
           | none => Except.error (PyErr.key "investmentAccountDetails")
         | _ => Except.error PyErr.typeErr) with
  | .error e => (.error e, s)
  | .ok items => detailsLoop items account_id s

/-- Environment for AllAccount.get_investment_json: the intercepted request.
`request = none` models a PlaywrightTimeoutError or RuntimeError inside the
`with expect_request` block (no matching request, or body fetch failure);
`request = some body` models a matched request whose response body decoded to
`body`, with HTTP status `status`. -/
structure FetchEnv where
  request : Option Json
  status : Nat

/-- The cache-scanning loop of get_investment_json (account.py lines 112-122):
find the entry whose "url" is the investment list path, take
info["response"]["investmentAccountOverviews"][0], and when the status is 200
store the totals and return it; a non-200 status falls through to the next
entry. The pair threaded through is (total_value, total_value_change). -/
def investLoop (status : Nat) : List Json → Json × Json →
    Except PyErr (Option Json) × (Json × Json)
  | [], totals => (.ok none, totals)
  | info :: rest, totals =>
    match info with
    | .obj fields =>
      match fields.lookup "url" with
      | none => (.error (.key "url"), totals)
      | some u =>
        if jsonEqStr u "/svc/rr/accounts/secure/overview/investment/v1/list" then
          match fields.lookup "response" with
          | none => (.error (.key "response"), totals)
          | some (.obj rfields) =>
            match rfields.lookup "investmentAccountOverviews" with
            | none => (.error (.key "investmentAccountOverviews"), totals)
            | some (.arr []) => (.error .index, totals)
            | some (.arr (first :: _)) =>
              if status == 200 then
                match jsonGet first "totalValue", first with
                | _, .null => (.error .typeErr, totals)
                | none, .obj _ => (.error (.key "totalValue"), totals)
                | none, _ => (.error .typeErr, totals)
                | some tv, _ =>
                  match jsonGet first "totalValueChange", first with
                  | none, .obj _ => (.error (.key "totalValueChange"), (tv, totals.2))
                  | none, _ => (.error .typeErr, (tv, totals.2))
                  | some tvc, _ => (.ok (some first), (tv, tvc))
              else investLoop status rest totals
            | some _ => (.error .typeErr, totals)
          | some _ => (.error .typeErr, totals)
        else investLoop status rest totals
    | _ => (.error .typeErr, totals)

/-- AllAccount.get_investment_json (account.py lines 85-124). A timeout or
runtime error inside the with-block is caught and returns Python None
(`.ok none`); key errors from the body scan propagate (the except clause
names only PlaywrightTimeoutError and RuntimeError). The pair threaded
through is (total_value, total_value_change). -/
def get_investment_json (env : FetchEnv) (totals : Json × Json) :
    Except PyErr (Option Json) × (Json × Json) :=
  match env.request with
  | none => (.ok none, totals)
  | some body =>
    match body with
    | .obj bfields =>
      match bfields.lookup "cache" with
      | none => (.error (.key "cache"), totals)
      | some (.arr infos) => investLoop env.status infos totals
      | some _ => (.error .typeErr, totals)
    | _ => (.error .typeErr, totals)

/-- Environment for Order._get_order_statuses_async: `response = none` models
any exception inside the try (navigation failure, expect_response timeout,
JSON decode error); `some body` is the decoded summaries payload. -/
structure StatusEnv where
  response : Option Json

/-- Order._get_order_statuses_async (order.py lines 337-363): the blanket
`except Exception` turns every failure into Python None. -/
def get_order_statuses (env : StatusEnv) : Option Json :=
  match env.response with
  | none => none
  | some body => some body

/-- Environment for SymbolHoldings._get_holdings_async: `response = none`
models any failure up to and including JSON decoding (navigation, timeout of
the intercepted response, decode error); `some body` is the decoded positions
payload. -/
structure HoldingsEnv where
  response : Option Json

/-- The attributes of a SymbolHoldings object assigned by
_get_holdings_async. Defaults are from __init__ (symbols.py lines 154-162);
cash_sweep_position_summary has no initializer in the source and starts as
Json.null here. as_of_time stores the raw timestamp string (datetime.strptime
is abstracted; a non-string raises TypeError as in Python). -/
structure HoldingsState where
  as_of_time : Json
  asset_allocation_tool_eligible_indicator : Bool
  cash_sweep_position_summary : Json
  custom_position_allowed_indicator : Bool
  error_responses : Json
  performance_allowed_indicator : Bool
  positions : Json
  positions_summary : Json
  raw_json : Json

/-- SymbolHoldings.__init__ attribute defaults (symbols.py lines 154-162). -/
def initHoldingsState : HoldingsState :=
  { as_of_time := .null,
    asset_allocation_tool_eligible_indicator := false,
    cash_sweep_position_summary := .null,
    custom_position_allowed_indicator := false,
    error_responses := .arr [],
    performance_allowed_indicator := false,
    positions := .arr [],
    positions_summary := .obj [],
    raw_json := .obj [] }

/-- Python `d[k]` on a decoded JSON value: KeyError when a dict lacks the
key, TypeError when the value is not a dict. -/
def jsonIndex (j : Json) (k : String) : Except PyErr Json :=
  match j with
  | .obj fields =>
    match fields.lookup k with
    | some v => .ok v
    | none => .error (.key k)
  | _ => .error .typeErr

/-- The body of the try block of SymbolHoldings._get_holdings_async
(symbols.py lines 182-214): store raw_json, then assign each attribute from
its field in source order; the first missing field raises a KeyError that
leaves the earlier assignments in place. -/
def get_holdings_inner (env : HoldingsEnv) (st : HoldingsState) :
    Except PyErr Bool × HoldingsState :=
  match env.response with
  | none => (.error (.timeout "Timeout 10000ms exceeded."), st)
  | some body =>
    let st := { st with raw_json := body }
    match jsonIndex body "asOfTimestamp" with
    | .error e => (.error e, st)
    | .ok ts =>
      match ts with
      | .str tss =>
        let st := { st with as_of_time := .str tss }
        match jsonIndex body "assetAllocationToolEligibleIndicator" with
        | .error e => (.error e, st)
        | .ok v1 =>
          let st := { st with asset_allocation_tool_eligible_indicator := pyBool v1 }
          match jsonIndex body "cashSweepPositionSummary" with
          | .error e => (.error e, st)
          | .ok v2 =>
            let st := { st with cash_sweep_position_summary := v2 }
            match jsonIndex body "customPositionAllowedIndicator" with
            | .error e => (.error e, st)
            | .ok v3 =>
              let st := { st with custom_position_allowed_indicator := pyBool v3 }
              match jsonIndex body "errorResponses" with
              | .error e => (.error e, st)
              | .ok v4 =>
                let st := { st with error_responses := v4 }
                match jsonIndex body "performanceAllowedIndicator" with
                | .error e => (.error e, st)
                | .ok v5 =>
                  let st := { st with performance_allowed_indicator := pyBool v5 }
                  match jsonIndex body "positions" with
                  | .error e => (.error e, st)
                  | .ok v6 =>
                    let st := { st with positions := v6 }
                    match jsonIndex body "positionsSummary" with
                    | .error e => (.error e, st)
                    | .ok v7 =>
                      (.ok true, { st with positions_summary := v7 })
      | _ => (.error .typeErr, st)

/-- SymbolHoldings._get_holdings_async (symbols.py lines 175-217): the
blanket `except Exception` catches every failure of the body, including
KeyError on a payload missing an expected field, and returns False. -/
def get_holdings (env : HoldingsEnv) (st : HoldingsState) : Bool × HoldingsState :=
  match get_holdings_inner env st with
  | (.ok b, st1) => (b, st1)
  | (.error _, st1) => (false, st1)

/-- order.py PriceType (StrEnum). -/
inductive PriceType where
  | LIMIT
  | MARKET
  | STOP
  | STOP_LIMIT
deriving DecidableEq, Repr

/-- order.py Duration (StrEnum); GTC's value is "GOOD_TILL_CANCELLED",
ON_CLOSE's is "ON_THE_CLOSE". -/
inductive Duration where
  | DAY
  | GTC
  | ON_OPEN
  | ON_CLOSE
  | I_C
deriving DecidableEq, Repr

/-- order.py OrderSide (StrEnum). -/
inductive OrderSide where
  | BUY
  | SELL
  | SELL_ALL
deriving DecidableEq, Repr

/-- Page interactions performed by _place_order_async. Numeric send_keys
(`str(limit_price)` etc.) carry the numeric value; the str() rendering is
abstracted. -/
inductive OrderStep where
  | getPage (url : String)
  | reloadPage
  | findAttempt (i : Nat)
  | click (sel : String)
  | clearKeys (sel : String)
  | sendStr (sel : String) (text : String)
  | sendNum (sel : String) (v : Rat)
deriving DecidableEq, Repr

/-- The order_messages dictionary of _place_order_async (order.py lines
122-128), with its five fixed keys. -/
structure OrderMessages where
  order_invalid : String
  warning : String
  order_preview : String
  after_hours_warning : String
  order_confirmation : String
deriving DecidableEq, Repr

/-- The initial order_messages dictionary: every value the empty string. -/
def initOrderMessages : OrderMessages :=
  { order_invalid := "", warning := "", order_preview := "",
    after_hours_warning := "", order_confirmation := "" }

/-- The arguments of place_order plus the accept_warning attribute of the
Order object. -/
structure OrderArgs where
  account_id : String
  quantity : Int
  price_type : PriceType
  symbol : String
  duration : Duration
  order_type : OrderSide
  limit_price : Rat
  stop_price : Rat
  after_hours : Bool
  dry_run : Bool
  accept_warning : Bool

/-- Environment for _place_order_async. `loadOk i` says whether attempt `i`
of the page-load retry loop succeeds (the whole find/typing sequence of lines
134-151 collapsed into one flag); `find sel` gives the text of the element a
later `page.find(sel)` would produce, or `none` when the find times out /
raises. -/
structure OrderEnv where
  loadOk : Nat → Bool
  find : String → Option String

/-- The page-load retry loop (order.py lines 130-157): up to four attempts,
each setting "ORDER INVALID" to the success or failure text. -/
def loadLoop (env : OrderEnv) : Nat → Nat → OrderMessages → List OrderStep →
    OrderMessages × List OrderStep
  | _, 0, m, tr => (m, tr)
  | i, fuel + 1, m, tr =>
    let tr := tr ++ [.getPage order_page, .reloadPage, .findAttempt i]
    if env.loadOk i then
      ({ m with order_invalid := "Order page loaded correctly." }, tr)
    else
      loadLoop env (i + 1) fuel
        { m with order_invalid :=
            "Order page did not load correctly cannot continue. Tried " ++
            toString (i + 1) ++ " time(s)." } tr

/-- The label selector clicked for each order side (order.py lines 162-170). -/
def sideSelector : OrderSide → String
  | .BUY => "xpath=//label[text()=\x27Buy\x27]"
  | .SELL => "xpath=//label[text()=\x27Sell\x27]"
  | .SELL_ALL => "xpath=//label[text()=\x27Sell All\x27]"

/-- The label selector clicked for each price type (order.py lines 172-198). -/
def ptSelector : PriceType → String
  | .LIMIT => "xpath=//label[text()=\x27Limit\x27]"
  | .MARKET => "xpath=//label[text()=\x27Market\x27]"
  | .STOP => "xpath=//label[text()=\x27Stop\x27]"
  | .STOP_LIMIT => "xpath=//label[text()=\x27Stop Limit\x27]"

/-- The label selector clicked for each duration (order.py lines 211-227). -/
def durSelector : Duration → String
  | .DAY => "xpath=//label[text()=\x27Day\x27]"
  | .GTC => "xpath=//label[text()=\x27Good \x27til canceled\x27]"
  | .ON_OPEN => "xpath=//label[text()=\x27On open\x27]"
  | .ON_CLOSE => "xpath=//label[text()=\x27On close\x27]"
  | .I_C => "xpath=//label[text()=\x27Immediate or Cancel\x27]"

/-- The confirmation block (order.py lines 303-319): read the alert text,
replacing newlines with spaces; a missing element ends with the failure
message. -/
def confirmationStage (env : OrderEnv) (m : OrderMessages) (tr : List OrderStep) :
    Except PyErr OrderMessages × List OrderStep :=
  match env.find "#equityConfirmation > div" with
  | none =>
    (.ok { m with order_confirmation := "No order confirmation page found. Order Failed." }, tr)
  | some _ =>
    match env.find ".alert__title-text" with
    | none =>
      (.ok { m with order_confirmation := "No order confirmation page found. Order Failed." }, tr)
    | some t =>
      (.ok { m with order_confirmation := t.replace "\n" " " }, tr)

/-- The after-hours block (order.py lines 286-301). A missing confirm button
raises inside the try, so the outer except overwrites the message with the
absence text and control continues to the confirmation block. -/
def afterHoursStage (env : OrderEnv) (a : OrderArgs) (m : OrderMessages)
    (tr : List OrderStep) : Except PyErr OrderMessages × List OrderStep :=
  match env.find "#afterHoursModal > div.markets-message > div" with
  | none =>
    confirmationStage env
      { m with after_hours_warning := "No after hours warning page found." } tr
  | some wtext =>
    let m := { m with after_hours_warning := wtext }
    if a.after_hours then
      match env.find "#confirmAfterHoursOrder" with
      | some _ => confirmationStage env m (tr ++ [.click "#confirmAfterHoursOrder"])
      | none =>
        confirmationStage env
          { m with after_hours_warning := "No after hours warning page found." } tr
    else (.ok m, tr)

/-- The preview block (order.py lines 271-284). With dry_run the accumulated
messages are returned after recording the preview text; otherwise the submit
button is clicked, and a missing submit button raises inside the try, so the
outer except overwrites the message and control continues. -/
def previewPageStage (env : OrderEnv) (a : OrderArgs) (m : OrderMessages)
    (tr : List OrderStep) : Except PyErr OrderMessages × List OrderStep :=
  match env.find ".trade-wrapper" with
  | none =>
    afterHoursStage env a { m with order_preview := "No order preview page found." } tr
  | some ptext =>
    let m := { m with order_preview := ptext }
    if !a.dry_run then
      match env.find "#submitOrder" with
      | some _ => afterHoursStage env a m (tr ++ [.click "#submitOrder"])
      | none =>
        afterHoursStage env a { m with order_preview := "No order preview page found." } tr
    else (.ok m, tr)

/-- The soft-warning block (order.py lines 248-269). When a warning is shown
and accept_warning is false, the accumulated messages are returned; a missing
accept button raises inside the try, so the outer except overwrites the
warning message with the absence text and control continues. -/
def softWarningStage (env : OrderEnv) (a : OrderArgs) (m : OrderMessages)
    (tr : List OrderStep) : Except PyErr OrderMessages × List OrderStep :=
  match env.find "#equityOverlayContent > div > div" with
  | none => previewPageStage env a { m with warning := "No warning page found." } tr
  | some _ =>
    match env.find "#previewSoftWarning > ul" with
    | none => previewPageStage env a { m with warning := "No warning page found." } tr
    | some wtext =>
      let m := { m with warning := wtext }
      if a.accept_warning then
        match env.find ".button--primary" with
        | some _ => previewPageStage env a m (tr ++ [.click ".button--primary"])
        | none => previewPageStage env a { m with warning := "No warning page found." } tr
      else (.ok m, tr)

/-- The invalid-order check after preview (order.py lines 237-246): when the
invalid message element exists its text is returned at once under
"ORDER INVALID"; otherwise the absence text is recorded and control
continues. -/
def invalidMsgStage (env : OrderEnv) (a : OrderArgs) (m : OrderMessages)
    (tr : List OrderStep) : Except PyErr OrderMessages × List OrderStep :=
  match env.find "#entry-trade-wrapper > div > div:nth-child(1) > div > div" with
  | some t => (.ok { m with order_invalid := t }, tr)
  | none =>
    softWarningStage env a { m with order_invalid := "No invalid order message found." } tr

/-- The preview-button click (order.py lines 229-235): a missing preview
button is fatal. -/
def previewButtonStage (env : OrderEnv) (a : OrderArgs) (m : OrderMessages)
    (tr : List OrderStep) : Except PyErr OrderMessages × List OrderStep :=
  match env.find "#previewOrder" with
  | none =>
    (.error (.exc "No preview button found or it is not interactable. Cannot continue."), tr)
  | some _ => invalidMsgStage env a m (tr ++ [.click "#previewOrder"])

/-- The duration click (order.py lines 211-227); IMMEDIATE_OR_CANCEL first
opens the execution-options wrap. These finds are unprotected, so a missing
label raises. -/
def durationStage (env : OrderEnv) (a : OrderArgs) (m : OrderMessages)
    (tr : List OrderStep) : Except PyErr OrderMessages × List OrderStep :=
  match a.duration with
  | .I_C =>
    match env.find "#tradeExecutionOptions-iconwrap" with
    | none => (.error (.timeout "#tradeExecutionOptions-iconwrap"), tr)
    | some _ =>
      let tr := tr ++ [.click "#tradeExecutionOptions-iconwrap"]
      match env.find (durSelector .I_C) with
      | none => (.error (.timeout (durSelector .I_C)), tr)
      | some _ => previewButtonStage env a m (tr ++ [.click (durSelector .I_C)])
  | d =>
    match env.find (durSelector d) with
    | none => (.error (.timeout (durSelector d)), tr)
    | some _ => previewButtonStage env a m (tr ++ [.click (durSelector d)])

/-- The quantity box (order.py lines 207-209): cleared then filled with
str(quantity). -/
def quantityStage (env : OrderEnv) (a : OrderArgs) (m : OrderMessages)
    (tr : List OrderStep) : Except PyErr OrderMessages × List OrderStep :=
  match env.find "#tradeQuantity-text-input-field" with
  | none => (.error (.timeout "#tradeQuantity-text-input-field"), tr)
  | some _ =>
    durationStage env a m
      (tr ++ [.clearKeys "#tradeQuantity-text-input-field",
              .sendNum "#tradeQuantity-text-input-field" (a.quantity : Rat)])

/-- The stop-price field (order.py lines 203-205): filled for STOP and
STOP_LIMIT with str(stop_price); no presence or value validation. -/
def stopFieldStage (env : OrderEnv) (a : OrderArgs) (m : OrderMessages)
    (tr : List OrderStep) : Except PyErr OrderMessages × List OrderStep :=
  if a.price_type = .STOP ∨ a.price_type = .STOP_LIMIT then
    match env.find "#tradeStopPrice-text-input-field" with
    | none => (.error (.timeout "#tradeStopPrice-text-input-field"), tr)
    | some _ =>
      quantityStage env a m (tr ++ [.sendNum "#tradeStopPrice-text-input-field" a.stop_price])
  else quantityStage env a m tr

/-- The limit-price field (order.py lines 200-202): filled for LIMIT and
STOP_LIMIT with str(limit_price); no presence or value validation. -/
def fillFieldsStage (env : OrderEnv) (a : OrderArgs) (m : OrderMessages)
    (tr : List OrderStep) : Except PyErr OrderMessages × List OrderStep :=
  if a.price_type = .LIMIT ∨ a.price_type = .STOP_LIMIT then
    match env.find "#tradeLimitPrice-text-input-field" with
    | none => (.error (.timeout "#tradeLimitPrice-text-input-field"), tr)
    | some _ =>
      stopFieldStage env a m (tr ++ [.sendNum "#tradeLimitPrice-text-input-field" a.limit_price])
  else stopFieldStage env a m tr

/-- The price-type click and the duration-compatibility checks (order.py
lines 172-198): MARKET requires DAY or ON_THE_CLOSE, STOP and STOP_LIMIT
require DAY or GOOD_TILL_CANCELLED, each violation returning the messages
with the rejection text; LIMIT has no duration check. -/
def priceTypeStage (env : OrderEnv) (a : OrderArgs) (m : OrderMessages)
    (tr : List OrderStep) : Except PyErr OrderMessages × List OrderStep :=
  match env.find (ptSelector a.price_type) with
  | none => (.error (.timeout (ptSelector a.price_type)), tr)
  | some _ =>
    let tr := tr ++ [.click (ptSelector a.price_type)]
    match a.price_type with
    | .LIMIT => fillFieldsStage env a m tr
    | .MARKET =>
      if a.duration = .DAY ∨ a.duration = .ON_CLOSE then fillFieldsStage env a m tr
      else (.ok { m with order_invalid := "Market orders must be DAY or ON THE CLOSE." }, tr)
    | .STOP =>
      if a.duration = .DAY ∨ a.duration = .GTC then fillFieldsStage env a m tr
      else (.ok { m with order_invalid := "Stop orders must be DAY or GOOD TILL CANCELLED." }, tr)
    | .STOP_LIMIT =>
      if a.duration = .DAY ∨ a.duration = .GTC then fillFieldsStage env a m tr
      else (.ok { m with order_invalid := "Stop orders must be DAY or GOOD TILL CANCELLED." }, tr)

/-- The order-side click (order.py lines 162-170); the find is unprotected. -/
def orderSideStage (env : OrderEnv) (a : OrderArgs) (m : OrderMessages)
    (tr : List OrderStep) : Except PyErr OrderMessages × List OrderStep :=
  match env.find (sideSelector a.order_type) with
  | none => (.error (.timeout (sideSelector a.order_type)), tr)
  | some _ => priceTypeStage env a m (tr ++ [.click (sideSelector a.order_type)])

/-- The body of _place_order_async from the message-dictionary initialization
onward (order.py lines 122-319), with the page.get of line 131 modelled as an
event inside loadLoop. This is the code the validation claims describe;
place_order_async itself never reaches it (see below). -/
def place_order_body (env : OrderEnv) (a : OrderArgs) :
    Except PyErr OrderMessages × List OrderStep :=
  let (m, tr) := loadLoop env 0 4 initOrderMessages []
  if m.order_invalid != "Order page loaded correctly." then (.ok m, tr)
  else orderSideStage env a m tr

/-- Order._place_order_async as written (order.py lines 104-131): line 118
loads the generic order page, then line 131 of the first retry iteration
calls order_page(account_id) even though urls.order_page takes no
parameters, so Python raises TypeError before the try block is entered and
the rest of the method (place_order_body) is unreachable. -/
def place_order_async (env : OrderEnv) (a : OrderArgs) :
    Except PyErr OrderMessages × List OrderStep :=
  (.error .typeErr, [.getPage order_page])

/-- Page interactions recorded during login (clicks and 2FA selections). -/
inductive LoginStep where
  | clickSel (sel : String)
  | clickShadowOption (label : String)
  | selectRadio (index : Nat) (label : String)
  | clickDropdownItem (text : String)
deriving DecidableEq, Repr

/-- Environment for ChaseSession._login_async. `find` answers every
`page.find` probe (`none` = timeout); `urlAfterSignin` is page.url at the
landing check of line 188, `pollUrl t` at poll tick `t` of the 120-second
push-approval loop, `urlAtOptOut` at the opt-out check of line 271 and
`urlAtFinal` at the final check of line 280. `shadowLabels` are the label
attributes of the `#optionsList *` elements; `radioJson` is the parsed
radio-buttons attribute of the mds-radio-group (none = attribute absent;
json.loads is abstracted to the parsed value); `dropdownTexts` are the texts
of the legacy dropdown options. Keystrokes, sleeps and the anti-bot
scroll/click noise are not recorded. -/
structure LoginEnv where
  find : String → Option String
  urlAfterSignin : String
  shadowLabels : List (Option String)
  pollUrl : Nat → String
  radioJson : Option Json
  dropdownTexts : List String
  urlAtOptOut : String
  urlAtFinal : String

/-- str(e) for the modelled exceptions, as interpolated into the wrapping
message of session.py line 288. -/
def pyErrStr : PyErr → String
  | .exc m => m
  | .timeout m => m
  | .key k => "\x27" ++ k ++ "\x27"
  | _ => ""

/-- The shadow-element scan of session.py lines 199-205: the first element
whose label attribute contains "Get a text" or "push notification" is
clicked. -/
def shadowLoop : List (Option String) → Option String
  | [] => none
  | none :: rest => shadowLoop rest
  | some t :: rest =>
    if strContains t "Get a text" || strContains t "push notification" then some t
    else shadowLoop rest

/-- The push-approval poll of session.py lines 216-219: up to `fuel` ticks,
returning `some false` (login complete, no code needed) as soon as the page
URL contains the landing page, `none` when the poll window expires. -/
def pushPoll (env : LoginEnv) : Nat → Nat → Option Bool
  | t, fuel + 1 =>
    if strContains (env.pollUrl t) landing_page then some false
    else pushPoll env (t + 1) fuel
  | _, 0 => none

/-- Does a radio button (a decoded JSON object) have a label containing
"xxx-xxx-" followed by the caller's last four digits (session.py line 233)? -/
def radioMatches (last_four : Nat) (b : Json) : Bool :=
  match jsonGetD b "label" (.str "") with
  | .str lbl => strContains lbl ("xxx-xxx-" ++ toString last_four)
  | _ => false

/-- The radio-button scan of session.py lines 232-243: the first matching
button has its index selected (recorded as a selectRadio event) and the loop
breaks; `.get` on a non-dict raises AttributeError and the `in` operator on a
non-string label raises TypeError. -/
def radioLoop (last_four : Nat) : List Json → Nat → Except PyErr (List LoginStep)
  | [], _ => .ok []
  | b :: rest, i =>
    match b with
    | .obj _ =>
      match jsonGetD b "label" (.str "") with
      | .str lbl =>
        if strContains lbl ("xxx-xxx-" ++ toString last_four) then
          .ok [.selectRadio i lbl]
        else radioLoop last_four rest (i + 1)
      | _ => .error .typeErr
    | _ => .error .attrErr

/-- The legacy dropdown scan of session.py lines 258-263: the first option
whose text contains str(last_four) is clicked. -/
def dropdownLoop (last_four : Nat) : List String → Option String
  | [] => none
  | t :: rest =>
    if strContains t (toString last_four) then some t
    else dropdownLoop last_four rest

/-- The final checks of session.py lines 270-283: the opt-out interstitial
(whose skip/save finds are unprotected, so their timeouts propagate to the
catch-all), then the landing check, else the unknown-page-state exception. -/
def optOutStage (env : LoginEnv) (tr : List LoginStep) :
    Except PyErr Bool × List LoginStep :=
  let fin := fun (tr : List LoginStep) =>
    if strContains env.urlAtFinal landing_page then (Except.ok false, tr)
    else (Except.error (PyErr.exc "Login failed due to an unknown page state."), tr)
  if strContains env.urlAtOptOut opt_out_verification_page then
    match env.find "//button[contains(., \x27Skip this step next time\x27)]" with
    | none => (.error (.timeout "//button[contains(., \x27Skip this step next time\x27)]"), tr)
    | some _ =>
      let tr := tr ++ [.clickSel "//button[contains(., \x27Skip this step next time\x27)]"]
      match env.find "//button[contains(., \x27Save and go to account\x27)]" with
      | none => (.error (.timeout "//button[contains(., \x27Save and go to account\x27)]"), tr)
      | some _ => fin (tr ++ [.clickSel "//button[contains(., \x27Save and go to account\x27)]"])
  else fin tr

/-- The text-message (SMS) flow of session.py lines 223-249: find the
mds-radio-group, scan its radio-buttons attribute for the matching suffix,
click next and return True (a 2FA code will be needed). A timeout on the
radio group or the next button is caught by the except of line 247 and
control falls through to the opt-out/final checks. -/
def smsStage (env : LoginEnv) (last_four : Nat) (tr : List LoginStep) :
    Except PyErr Bool × List LoginStep :=
  match env.find "mds-radio-group" with
  | none => optOutStage env tr
  | some _ =>
    let afterSelect := fun (tr : List LoginStep) =>
      match env.find "#next-content" with
      | none => optOutStage env tr
      | some _ => (Except.ok true, tr ++ [LoginStep.clickSel "#next-content"])
    match env.radioJson with
    | none => afterSelect tr
    | some j =>
      match j with
      | .arr bs =>
        match radioLoop last_four bs 0 with
        | .error e => (.error e, tr)
        | .ok sel => afterSelect (tr ++ sel)
      | _ => (.error .typeErr, tr)

/-- The new 2FA options flow of session.py lines 193-249: click the shadow
option, probe for the push-approval text (lines 209-222) and poll the
landing URL when present, then fall through to the SMS flow. -/
def newTwoFaStage (env : LoginEnv) (last_four : Nat) (tr : List LoginStep) :
    Except PyErr Bool × List LoginStep :=
  let tr := tr ++ (match shadowLoop env.shadowLabels with
                   | some t => [LoginStep.clickShadowOption t]
                   | none => [])
  match env.find "text=approve" with
  | none => smsStage env last_four tr
  | some _ =>
    match pushPoll env 0 120 with
    | some b => (.ok b, tr)
    | none => smsStage env last_four tr

/-- The legacy dropdown 2FA flow of session.py lines 253-268, reached when
the options list is absent: click the dropdown, click the option containing
str(last_four), submit, return True. Any timeout inside is caught by the
except of line 267 and control falls through to the opt-out/final checks. -/
def oldTwoFaStage (env : LoginEnv) (last_four : Nat) (tr : List LoginStep) :
    Except PyErr Bool × List LoginStep :=
  match env.find "#header-simplerAuth-dropdownoptions-styledselect" with
  | none => optOutStage env tr
  | some _ =>
    let tr := tr ++ [.clickSel "#header-simplerAuth-dropdownoptions-styledselect"]
    let tr := tr ++ (match dropdownLoop last_four env.dropdownTexts with
                     | some t => [LoginStep.clickDropdownItem t]
                     | none => [])
    match env.find "button[type=\x22submit\x22]" with
    | none => optOutStage env tr
    | some _ => (.ok true, tr ++ [.clickSel "button[type=\x22submit\x22]"])

/-- The try-block body of ChaseSession._login_async (session.py lines
158-283): type the credentials, sign in, check for the landing page, then
branch on the presence of the new 2FA options list. -/
def login_async_inner (env : LoginEnv) (last_four : Nat) :
    Except PyErr Bool × List LoginStep :=
  match env.find "#userId-input-field-input" with
  | none => (.error (.timeout "#userId-input-field-input"), [])
  | some _ =>
    match env.find "#password-input-field-input" with
    | none => (.error (.timeout "#password-input-field-input"), [])
    | some _ =>
      match env.find "#signin-button" with
      | none => (.error (.timeout "#signin-button"), [])
      | some _ =>
        let tr := [LoginStep.clickSel "#signin-button"]
        if strContains env.urlAfterSignin landing_page then (.ok false, tr)
        else
          match env.find "#optionsList" with
          | some _ => newTwoFaStage env last_four tr
          | none => oldTwoFaStage env last_four tr

/-- ChaseSession._login_async (session.py lines 143-288). The catch-all of
lines 285-288 closes the browser and re-raises a wrapped Exception. The
result pairs what the caller sees with whether the browser was closed. -/
def login_async (env : LoginEnv) (last_four : Nat) :
    (Except PyErr Bool × Bool) × List LoginStep :=
  match login_async_inner env last_four with
  | (.ok b, tr) => ((.ok b, false), tr)
  | (.error e, tr) =>
    ((.error (.exc ("Error in first step of login into Chase: " ++ pyErrStr e)), true), tr)

/-- Environment for ChaseSession._login_two_async: `find` answers the probes
(none = timeout), `urlAtOptOut` is page.url at the opt-out check of line 339
and `pollUrl t` at tick `t` of the final 60-second landing wait. -/
structure LoginTwoEnv where
  find : String → Option String
  urlAtOptOut : String
  pollUrl : Nat → String

/-- The final landing wait of session.py lines 350-353: up to `fuel` ticks,
`some true` once the URL contains the landing page, `none` on expiry. -/
def landingPoll (env : LoginTwoEnv) : Nat → Nat → Option Bool
  | t, fuel + 1 =>
    if strContains (env.pollUrl t) landing_page then some true
    else landingPoll env (t + 1) fuel
  | _, 0 => none

/-- The try-block body of ChaseSession._login_two_async (session.py lines
312-356): enter the code (new flow, then legacy flow, then the opt-out
interstitial, each probe's timeout swallowed), then wait up to 60 seconds
for the landing page; on expiry line 356 raises
TimeoutError("Failed to login to Chase. Landing page not reached after 60
seconds."). -/
def login_two_inner (env : LoginTwoEnv) : Except PyErr Bool :=
  let afterOptOut :=
    match landingPoll env 0 60 with
    | some b => Except.ok b
    | none =>
      Except.error (PyErr.timeout
        "Failed to login to Chase. Landing page not reached after 60 seconds.")
  let optOutPart :=
    if strContains env.urlAtOptOut opt_out_verification_page then
      match env.find "//button[contains(., \x27Skip this step next time\x27)]" with
      | none => afterOptOut
      | some _ =>
        match env.find "//button[contains(., \x27Save and go to account\x27)]" with
        | none => afterOptOut
        | some _ => afterOptOut
    else afterOptOut
  let oldFlow :=
    match env.find "#otpcode_input-input-field" with
    | none => optOutPart
    | some _ =>
      match env.find "#password_input-input-field" with
      | none => optOutPart
      | some _ =>
        match env.find "button[type=\x22submit\x22]" with
        | none => optOutPart
        | some _ => optOutPart
  match env.find "#otpInput" with
  | none => oldFlow
  | some _ =>
    match env.find "#next-content" with
    | none => oldFlow
    | some _ => oldFlow

/-- ChaseSession._login_two_async (session.py lines 302-362). The catch-all
of lines 358-362 catches every exception — including the TimeoutError the
method itself raises on line 356 — closes the browser, prints, and returns
False. The result pairs the returned bool with whether the browser was
closed. -/
def login_two (env : LoginTwoEnv) : Bool × Bool :=
  match login_two_inner env with
  | .ok b => (b, false)
  | .error _ => (false, true)


/-- The attribute state produced by one run of get_account_details on the
witness envelope used for the idempotence claim. -/
def adRunOnce : ADState :=
  { mask := .str "1234", nickname := .str "", detail_type := .str "",
    account_value := .num (-1), account_value_change := .num (-1),
    eda := .bool false, ira := .bool false, view_balance := .bool false,
    prior_year_ira := .bool false, show_xfer := .bool false }

/-- The duration-compatibility table enforced at order.py lines 178, 186 and
194: MARKET needs DAY or ON_THE_CLOSE, STOP and STOP_LIMIT need DAY or
GOOD_TILL_CANCELLED, LIMIT has no duration check. -/
def durationOk : PriceType → Duration → Bool
  | .LIMIT, _ => true
  | .MARKET, d => d == .DAY || d == .ON_CLOSE
  | .STOP, d => d == .DAY || d == .GTC
  | .STOP_LIMIT, d => d == .DAY || d == .GTC

/-- A fully cooperative order page: every load attempt succeeds and every
element is present with text "elem". -/
def envAllFound : OrderEnv :=
  { loadOk := fun _ => true, find := fun _ => some "elem" }

/-- A MARKET order with duration GOOD_TILL_CANCELLED (the invalid pair of
the claim's example scenario). -/
def argsMarketGtc : OrderArgs :=
  { account_id := "123", quantity := 1, price_type := .MARKET, symbol := "AAPL",
    duration := .GTC, order_type := .BUY, limit_price := 0, stop_price := 0,
    after_hours := true, dry_run := true, accept_warning := true }

/-- An order page where everything is present except the invalid-order
message element, so the flow proceeds past the post-preview check. -/
def envNoInvalidMsg : OrderEnv :=
  { loadOk := fun _ => true,
    find := fun sel =>
      if sel = "#entry-trade-wrapper > div > div:nth-child(1) > div > div" then none
      else some "elem" }

/-- A LIMIT DAY buy whose limit price was left at the 0.0 default (the
"missing required price" of the claim). -/
def argsLimitNoPrice : OrderArgs :=
  { account_id := "123", quantity := 2, price_type := .LIMIT, symbol := "AAPL",
    duration := .DAY, order_type := .BUY, limit_price := 0, stop_price := 0,
    after_hours := true, dry_run := true, accept_warning := true }

/-- A 2FA-code submission environment in which no element is ever found and
the landing page never appears: every probe times out and the final
60-second wait expires. -/
def envLoginTwoNoLanding : LoginTwoEnv :=
  { find := fun _ => none, urlAtOptOut := "about:blank",
    pollUrl := fun _ => "about:blank" }

/-- A login environment that ends on an unrecognized page state: credentials
and sign-in succeed, no 2FA variant is present, and every URL observation is
the unknown address below. -/
def envUnknownState : LoginEnv :=
  { find := fun sel =>
      if sel = "#userId-input-field-input" ∨ sel = "#password-input-field-input" ∨
         sel = "#signin-button" then some "x" else none,
    urlAfterSignin := "https://evil.example/unknown-state-xyz",
    shadowLabels := [],
    pollUrl := fun _ => "https://evil.example/unknown-state-xyz",
    radioJson := none,
    dropdownTexts := [],
    urlAtOptOut := "https://evil.example/unknown-state-xyz",
    urlAtFinal := "https://evil.example/unknown-state-xyz" }

/-- A login environment presenting a push-notification challenge that is
never approved: the approval text is found, the poll URL never reaches the
landing page, and no SMS radio group or legacy dropdown exists. -/
def envPushNeverApproved : LoginEnv :=
  { find := fun sel =>
      if sel = "#userId-input-field-input" ∨ sel = "#password-input-field-input" ∨
         sel = "#signin-button" ∨ sel = "#optionsList" ∨ sel = "text=approve"
      then some "x" else none,
    urlAfterSignin := "about:blank",
    shadowLabels := [some "Get a push notification"],
    pollUrl := fun _ => "about:blank",
    radioJson := none,
    dropdownTexts := [],
    urlAtOptOut := "about:blank",
    urlAtFinal := "about:blank" }

/-- A login environment whose push poll reaches the landing page at once
(used to witness the push-approval branch). -/
def envPushApproved : LoginEnv :=
  { envPushNeverApproved with pollUrl := fun _ => landing_page }

/-- A login environment presenting an SMS challenge with two phone-suffix
options, of which only the second matches last four 2222. -/
def envSmsTwoOptions : LoginEnv :=
  { find := fun sel =>
      if sel = "#userId-input-field-input" ∨ sel = "#password-input-field-input" ∨
         sel = "#signin-button" ∨ sel = "#optionsList" ∨ sel = "mds-radio-group" ∨
         sel = "#next-content" then some "x" else none,
    urlAfterSignin := "about:blank",
    shadowLabels := [some "Get a text"],
    pollUrl := fun _ => "about:blank",
    radioJson := some (.arr [.obj [("label", .str "xxx-xxx-1111")],
                             .obj [("label", .str "xxx-xxx-2222")]]),
    dropdownTexts := [],
    urlAtOptOut := "about:blank",
    urlAtFinal := "about:blank" }

/-- Is a login result the raising of a TimeoutError? -/
def isTimeoutErr : Except PyErr Bool → Bool
  | .error (.timeout _) => true
  | _ => false

/-- The radio-selection events of a login trace, in order. -/
def radioSelections : List LoginStep → List (Nat × String)
  | [] => []
  | .selectRadio i l :: r => (i, l) :: radioSelections r
  | _ :: r => radioSelections r

/- Helper lemmas for the account-details loop. -/

/-- The assignment block, when it succeeds, overwrites every tracked
attribute, so its result does not depend on the incoming state. -/
theorem assignItem_ok_const (item : Json) (s s2 t : ADState)
    (h : assignItem item s = (.ok (), t)) : assignItem item s2 = (.ok (), t) := by
  unfold assignItem at h ⊢
  cases hf : pyFloat (jsonGetD item "accountValue" (.num (-1))) with
  | error e => simp [hf] at h
  | ok av =>
    cases hg : pyFloat (jsonGetD item "accountValueChange" (.num (-1))) with
    | error e => simp [hf, hg] at h
    | ok avc =>
      simp only [hf, hg] at h ⊢
      exact h

/-- Running the item loop again from its own successful result changes
nothing: the per-item decisions depend only on the items, and a matching
item overwrites every tracked attribute. -/
theorem detailsLoop_idem (items : List Json) (aid : String) :
    ∀ s s1 : ADState, detailsLoop items aid s = (.ok (), s1) →
    detailsLoop items aid s1 = (.ok (), s1) := by
  induction items with
  | nil =>
    intro s s1 h
    simp only [detailsLoop, Prod.mk.injEq] at h
    rw [← h.2]
    rfl
  | cons item rest ih =>
    intro s s1 h
    match item with
    | .null | .bool _ | .num _ | .str _ | .arr _ =>
      simp [detailsLoop] at h
    | .obj fields =>
      simp only [detailsLoop] at h ⊢
      cases hg : jsonGet (.obj fields) "accountId" with
      | none =>
        rw [hg] at h
        simp at h
      | some v =>
        rw [hg] at h
        dsimp only at h ⊢
        by_cases hn : isNullJson v = true
        · rw [if_pos hn] at h
          simp at h
        · rw [if_neg hn] at h ⊢
          by_cases he : jsonEqStr v aid = true
          · rw [if_pos he] at h ⊢
            cases ha : assignItem (.obj fields) s with
            | mk e s2 =>
              rw [ha] at h
              cases e with
              | error e2 => simp at h
              | ok u =>
                have hc := assignItem_ok_const (.obj fields) s s1 s2 (by rw [ha])
                rw [hc]
                exact h
          · rw [if_neg he] at h ⊢
            exact ih s s1 h

/-- C9: account-envelope parsing is deterministic and idempotent — two
evaluations of get_account_connectors on the same all_account_info are
structurally equal, and re-running get_account_details on the same envelope
from the attribute state its first successful run produced reproduces that
state exactly. -/
theorem account_parsing_idempotent :
    (∀ info : Json, get_account_connectors info = get_account_connectors info) ∧
    (∀ (info : Json) (aid : String) (s s1 : ADState),
        get_account_details info aid s = (.ok (), s1) →
        get_account_details info aid s1 = (.ok (), s1)) := by
  refine ⟨fun info => rfl, fun info aid s s1 h => ?_⟩
  match info with
  | .null | .bool _ | .num _ | .str _ =>
    simp [get_account_details] at h
  | .arr items =>
    simp only [get_account_details] at h ⊢
    exact detailsLoop_idem items aid s s1 h
  | .obj fields =>
    simp only [get_account_details] at h ⊢
    cases hl : List.lookup "investmentAccountDetails" fields with
    | none => rw [hl] at h; simp at h
    | some j =>
      rw [hl] at h
      match j with
      | .null | .bool _ | .num _ | .str _ | .obj _ => simp at h
      | .arr items => exact detailsLoop_idem items aid s s1 h

/-- Witness for C9: a concrete envelope parsed twice. -/
theorem account_parsing_idempotent_witness :
    get_account_connectors (.obj [("investmentAccountDetails", .arr [])]) =
      get_account_connectors (.obj [("investmentAccountDetails", .arr [])]) ∧
    get_account_details (.arr [.obj [("accountId", .str "A"), ("mask", .str "1234")]])
      "A" adRunOnce = (.ok (), adRunOnce) :=
  ⟨account_parsing_idempotent.1 (.obj [("investmentAccountDetails", .arr [])]),
   account_parsing_idempotent.2
     (.arr [.obj [("accountId", .str "A"), ("mask", .str "1234")]]) "A"
     initADState adRunOnce rfl⟩

/-- Items that are dicts with a non-null accountId different from the target
are skipped without touching the state. -/
theorem detailsLoop_no_match (aid : String) :
    ∀ (items : List Json) (s : ADState),
    (∀ item ∈ items, ∃ fields v, item = .obj fields ∧
      jsonGet item "accountId" = some v ∧ isNullJson v = false ∧
      jsonEqStr v aid = false) →
    detailsLoop items aid s = (.ok (), s) := by
  intro items
  induction items with
  | nil => intro s _; rfl
  | cons item rest ih =>
    intro s hw
    obtain ⟨fields, v, hobj, hg, hn, he⟩ := hw item (List.mem_cons_self _ _)
    subst hobj
    simp only [detailsLoop]
    rw [hg]
    dsimp only
    rw [if_neg (by simp [hn]), if_neg (by simp [he])]
    exact ih s (fun it hit => hw it (List.mem_cons_of_mem _ hit))

/-- C10: constructing AccountDetails for an account_id matching no entry of a
well-formed envelope completes without raising and leaves every attribute at
its __init__ default (empty strings, -1 values, false flags). -/
theorem unmatched_account_keeps_defaults (info : Json) (items : List Json)
    (aid : String)
    (hshape : info = .arr items ∨ ∃ fields, info = .obj fields ∧
      List.lookup "investmentAccountDetails" fields = some (.arr items))
    (hitems : ∀ item ∈ items, ∃ fields v, item = .obj fields ∧
      jsonGet item "accountId" = some v ∧ isNullJson v = false ∧
      jsonEqStr v aid = false) :
    get_account_details info aid initADState = (.ok (), initADState) := by
  have hloop := detailsLoop_no_match aid items initADState hitems
  rcases hshape with rfl | ⟨fields, rfl, hl⟩
  · simpa [get_account_details] using hloop
  · simp only [get_account_details]
    rw [hl]
    exact hloop

/-- Witness for C10: an envelope whose only entry has a different id. -/
theorem unmatched_account_keeps_defaults_witness :
    get_account_details (.arr [.obj [("accountId", .str "B"), ("mask", .str "9")]])
      "A" initADState = (.ok (), initADState) :=
  unmatched_account_keeps_defaults _ [.obj [("accountId", .str "B"), ("mask", .str "9")]]
    "A" (Or.inl rfl)
    (by
      intro item hit
      simp only [List.mem_singleton] at hit
      subst hit
      exact ⟨[("accountId", .str "B"), ("mask", .str "9")], .str "B", rfl, rfl, rfl,
        by decide⟩)

/-- C8 counterexample: a payload that is present but missing the expected
"asOfTimestamp" field raises a KeyError inside _get_holdings_async, yet
get_holdings catches it and returns the normal value False instead of
propagating it, refuting the claim for this fetcher. -/
theorem holdings_missing_field_not_propagated :
    (get_holdings_inner { response := some (.obj [("positions", .arr [])]) }
        initHoldingsState).1 = .error (.key "asOfTimestamp") ∧
    get_holdings { response := some (.obj [("positions", .arr [])]) } initHoldingsState =
      (false, { initHoldingsState with raw_json := .obj [("positions", .arr [])] }) :=
  ⟨rfl, rfl⟩

/-- C8 (amended): a missing expected field propagates as a KeyError out of
get_account_connectors, whose loop has no handler; but in
SymbolHoldings.get_holdings the KeyError raised for a payload missing
"asOfTimestamp" is caught by the blanket except and turned into the normal
return value False. -/
theorem missing_field_propagation :
    (∀ fields : List (String × Json),
        List.lookup "investmentAccountDetails" fields = none →
        get_account_connectors (.obj fields) = .error (.key "investmentAccountDetails")) ∧
    (∀ (env : HoldingsEnv) (st : HoldingsState) (bf : List (String × Json)),
        env.response = some (.obj bf) → List.lookup "asOfTimestamp" bf = none →
        get_holdings_inner env st =
          (.error (.key "asOfTimestamp"), { st with raw_json := .obj bf }) ∧
        get_holdings env st = (false, { st with raw_json := .obj bf })) := by
  constructor
  · intro fields hl
    simp only [get_account_connectors]
    rw [hl]
  · intro env st bf h1 h2
    have hinner : get_holdings_inner env st =
        (.error (.key "asOfTimestamp"), { st with raw_json := .obj bf }) := by
      simp only [get_holdings_inner]
      rw [h1]
      simp only [jsonIndex]
      rw [h2]
    refine ⟨hinner, ?_⟩
    simp only [get_holdings]
    rw [hinner]

/-- Witness for C8 at concrete inputs. -/
theorem missing_field_propagation_witness :
    get_account_connectors (.obj [("other", .null)]) =
      .error (.key "investmentAccountDetails") ∧
    get_holdings { response := some (.obj []) } initHoldingsState =
      (false, { initHoldingsState with raw_json := .obj [] }) :=
  ⟨missing_field_propagation.1 [("other", .null)] rfl,
   (missing_field_propagation.2 { response := some (.obj []) } initHoldingsState []
      rfl rfl).2⟩

/-- Cache entries whose url differs from the investment-list path are all
skipped, and the scan returns Python None. -/
theorem investLoop_no_match (status : Nat) :
    ∀ (infos : List Json) (totals : Json × Json),
    (∀ info ∈ infos, ∃ fields u, info = .obj fields ∧
        List.lookup "url" fields = some u ∧
        jsonEqStr u "/svc/rr/accounts/secure/overview/investment/v1/list" = false) →
    investLoop status infos totals = (.ok none, totals) := by
  intro infos
  induction infos with
  | nil => intro totals _; rfl
  | cons info rest ih =>
    intro totals hw
    obtain ⟨fields, u, hobj, hu, hne⟩ := hw info (List.mem_cons_self _ _)
    subst hobj
    simp only [investLoop]
    rw [hu]
    dsimp only
    rw [if_neg (by simp [hne])]
    exact ih totals (fun it hit => hw it (List.mem_cons_of_mem _ hit))

/-- C5: intercepted-response fetches signal absence with Python None rather
than an exception — a timeout of get_investment_json returns None, a cache
scan that never finds the investment-list payload returns None, and any
failure of _get_order_statuses_async returns None. -/
theorem fetch_timeout_returns_absence :
    (∀ (env : FetchEnv) (totals : Json × Json), env.request = none →
        get_investment_json env totals = (.ok none, totals)) ∧
    (∀ (env : FetchEnv) (totals : Json × Json) (bfields : List (String × Json))
        (infos : List Json),
        env.request = some (.obj bfields) →
        List.lookup "cache" bfields = some (.arr infos) →
        (∀ info ∈ infos, ∃ fields u, info = .obj fields ∧
          List.lookup "url" fields = some u ∧
          jsonEqStr u "/svc/rr/accounts/secure/overview/investment/v1/list" = false) →
        get_investment_json env totals = (.ok none, totals)) ∧
    (∀ env : StatusEnv, env.response = none → get_order_statuses env = none) := by
  refine ⟨?_, ?_, ?_⟩
  · intro env totals h
    simp only [get_investment_json]
    rw [h]
  · intro env totals bfields infos h1 h2 hw
    simp only [get_investment_json]
    rw [h1]
    dsimp only
    rw [h2]
    exact investLoop_no_match env.status infos totals hw
  · intro env h
    simp only [get_order_statuses]
    rw [h]

/-- Witness for C5 at concrete inputs. -/
theorem fetch_timeout_returns_absence_witness :
    get_investment_json { request := none, status := 200 } (.null, .null) =
      (.ok none, (.null, .null)) ∧
    get_investment_json
      { request := some (.obj [("cache", .arr [.obj [("url", .str "/svc/other")]])]),
        status := 200 } (.null, .null) = (.ok none, (.null, .null)) ∧
    get_order_statuses { response := none } = none := by
  refine ⟨fetch_timeout_returns_absence.1 _ (.null, .null) rfl, ?_,
    fetch_timeout_returns_absence.2.2 _ rfl⟩
  refine fetch_timeout_returns_absence.2.1 _ (.null, .null)
    [("cache", .arr [.obj [("url", .str "/svc/other")]])]
    [.obj [("url", .str "/svc/other")]] rfl rfl ?_
  intro info hit
  simp only [List.mem_singleton] at hit
  subst hit
  exact ⟨[("url", .str "/svc/other")], .str "/svc/other", rfl, rfl, by decide⟩

/- Trace-monotonicity lemmas: every order stage only appends to the trace. -/

/-- An element of a trace stays in any extension of it. -/
theorem trace_mem_mono {e : OrderStep} {tr tr2 : List OrderStep}
    (h : ∃ ext, tr2 = tr ++ ext) (he : e ∈ tr) : e ∈ tr2 := by
  obtain ⟨ext, rfl⟩ := h
  exact List.mem_append_left _ he

/-- The confirmation block never drops trace entries. -/
theorem confirmationStage_trace (env : OrderEnv) (m : OrderMessages)
    (tr : List OrderStep) : ∃ ext, (confirmationStage env m tr).2 = tr ++ ext := by
  simp only [confirmationStage]
  cases env.find "#equityConfirmation > div" with
  | none => exact ⟨[], by simp⟩
  | some v =>
    cases env.find ".alert__title-text" with
    | none => exact ⟨[], by simp⟩
    | some t => exact ⟨[], by simp⟩

/-- The after-hours block never drops trace entries. -/
theorem afterHoursStage_trace (env : OrderEnv) (a : OrderArgs) (m : OrderMessages)
    (tr : List OrderStep) : ∃ ext, (afterHoursStage env a m tr).2 = tr ++ ext := by
  simp only [afterHoursStage]
  cases env.find "#afterHoursModal > div.markets-message > div" with
  | none => exact confirmationStage_trace env _ tr
  | some w =>
    cases hb : a.after_hours with
    | false => simp only [hb]; exact ⟨[], by simp⟩
    | true =>
      simp only [hb, if_true]
      cases env.find "#confirmAfterHoursOrder" with
      | none => exact confirmationStage_trace env _ tr
      | some c =>
        obtain ⟨ext, hext⟩ := confirmationStage_trace env
          { m with after_hours_warning := w } (tr ++ [.click "#confirmAfterHoursOrder"])
        exact ⟨[.click "#confirmAfterHoursOrder"] ++ ext, by rw [hext]; simp⟩

/-- The preview block never drops trace entries. -/
theorem previewPageStage_trace (env : OrderEnv) (a : OrderArgs) (m : OrderMessages)
    (tr : List OrderStep) : ∃ ext, (previewPageStage env a m tr).2 = tr ++ ext := by
  simp only [previewPageStage]
  cases env.find ".trade-wrapper" with
  | none => exact afterHoursStage_trace env a _ tr
  | some w =>
    cases hb : a.dry_run with
    | true => simp only [hb]; exact ⟨[], by simp⟩
    | false =>
      simp only [hb, Bool.not_false, if_true]
      cases env.find "#submitOrder" with
      | none => exact afterHoursStage_trace env a _ tr
      | some c =>
        obtain ⟨ext, hext⟩ := afterHoursStage_trace env a
          { m with order_preview := w } (tr ++ [.click "#submitOrder"])
        exact ⟨[.click "#submitOrder"] ++ ext, by rw [hext]; simp⟩

/-- The soft-warning block never drops trace entries. -/
theorem softWarningStage_trace (env : OrderEnv) (a : OrderArgs) (m : OrderMessages)
    (tr : List OrderStep) : ∃ ext, (softWarningStage env a m tr).2 = tr ++ ext := by
  simp only [softWarningStage]
  cases env.find "#equityOverlayContent > div > div" with
  | none => exact previewPageStage_trace env a _ tr
  | some w =>
    cases env.find "#previewSoftWarning > ul" with
    | none => exact previewPageStage_trace env a _ tr
    | some w2 =>
      cases hb : a.accept_warning with
      | false => simp only [hb]; exact ⟨[], by simp⟩
      | true =>
        simp only [hb, if_true]
        cases env.find ".button--primary" with
        | none => exact previewPageStage_trace env a _ tr
        | some c =>
          obtain ⟨ext, hext⟩ := previewPageStage_trace env a
            { m with warning := w2 } (tr ++ [.click ".button--primary"])
          exact ⟨[.click ".button--primary"] ++ ext, by rw [hext]; simp⟩

/-- The invalid-message check never drops trace entries. -/
theorem invalidMsgStage_trace (env : OrderEnv) (a : OrderArgs) (m : OrderMessages)
    (tr : List OrderStep) : ∃ ext, (invalidMsgStage env a m tr).2 = tr ++ ext := by
  simp only [invalidMsgStage]
  cases env.find "#entry-trade-wrapper > div > div:nth-child(1) > div > div" with
  | none => exact softWarningStage_trace env a _ tr
  | some t => exact ⟨[], by simp⟩

/-- The preview-button click never drops trace entries. -/
theorem previewButtonStage_trace (env : OrderEnv) (a : OrderArgs) (m : OrderMessages)
    (tr : List OrderStep) : ∃ ext, (previewButtonStage env a m tr).2 = tr ++ ext := by
  simp only [previewButtonStage]
  cases env.find "#previewOrder" with
  | none => exact ⟨[], by simp⟩
  | some v =>
    obtain ⟨ext, hext⟩ := invalidMsgStage_trace env a m (tr ++ [.click "#previewOrder"])
    exact ⟨[.click "#previewOrder"] ++ ext, by rw [hext]; simp⟩

/-- A single unprotected label click followed by the preview stage never
drops trace entries. -/
theorem durClickAux_trace (env : OrderEnv) (a : OrderArgs) (m : OrderMessages)
    (tr : List OrderStep) (sel : String) :
    ∃ ext, (match env.find sel with
            | none => (Except.error (PyErr.timeout sel), tr)
            | some _ => previewButtonStage env a m (tr ++ [OrderStep.click sel])).2 =
      tr ++ ext := by
  cases env.find sel with
  | none => exact ⟨[], by simp⟩
  | some v =>
    obtain ⟨ext, hext⟩ := previewButtonStage_trace env a m (tr ++ [.click sel])
    exact ⟨[.click sel] ++ ext, by rw [hext]; simp⟩

/-- The duration click never drops trace entries. -/
theorem durationStage_trace (env : OrderEnv) (a : OrderArgs) (m : OrderMessages)
    (tr : List OrderStep) : ∃ ext, (durationStage env a m tr).2 = tr ++ ext := by
  simp only [durationStage]
  cases hd : a.duration with
  | I_C =>
    cases env.find "#tradeExecutionOptions-iconwrap" with
    | none => exact ⟨[], by simp⟩
    | some v =>
      cases env.find (durSelector .I_C) with
      | none => exact ⟨[.click "#tradeExecutionOptions-iconwrap"], by simp⟩
      | some w =>
        obtain ⟨ext, hext⟩ := previewButtonStage_trace env a m
          ((tr ++ [.click "#tradeExecutionOptions-iconwrap"]) ++ [.click (durSelector .I_C)])
        exact ⟨[.click "#tradeExecutionOptions-iconwrap"] ++ [.click (durSelector .I_C)] ++ ext,
          by rw [hext]; simp⟩
  | DAY => exact durClickAux_trace env a m tr (durSelector .DAY)
  | GTC => exact durClickAux_trace env a m tr (durSelector .GTC)
  | ON_OPEN => exact durClickAux_trace env a m tr (durSelector .ON_OPEN)
  | ON_CLOSE => exact durClickAux_trace env a m tr (durSelector .ON_CLOSE)

/-- The quantity box never drops trace entries. -/
theorem quantityStage_trace (env : OrderEnv) (a : OrderArgs) (m : OrderMessages)
    (tr : List OrderStep) : ∃ ext, (quantityStage env a m tr).2 = tr ++ ext := by
  simp only [quantityStage]
  cases env.find "#tradeQuantity-text-input-field" with
  | none => exact ⟨[], by simp⟩
  | some v =>
    obtain ⟨ext, hext⟩ := durationStage_trace env a m
      (tr ++ [.clearKeys "#tradeQuantity-text-input-field",
              .sendNum "#tradeQuantity-text-input-field" (a.quantity : Rat)])
    exact ⟨[.clearKeys "#tradeQuantity-text-input-field",
            .sendNum "#tradeQuantity-text-input-field" (a.quantity : Rat)] ++ ext,
      by rw [hext]; simp⟩

/-- The stop-price field never drops trace entries. -/
theorem stopFieldStage_trace (env : OrderEnv) (a : OrderArgs) (m : OrderMessages)
    (tr : List OrderStep) : ∃ ext, (stopFieldStage env a m tr).2 = tr ++ ext := by
  simp only [stopFieldStage]
  by_cases hs : a.price_type = .STOP ∨ a.price_type = .STOP_LIMIT
  · rw [if_pos hs]
    cases env.find "#tradeStopPrice-text-input-field" with
    | none => exact ⟨[], by simp⟩
    | some v =>
      obtain ⟨ext, hext⟩ := quantityStage_trace env a m
        (tr ++ [.sendNum "#tradeStopPrice-text-input-field" a.stop_price])
      exact ⟨[.sendNum "#tradeStopPrice-text-input-field" a.stop_price] ++ ext,
        by rw [hext]; simp⟩
  · rw [if_neg hs]
    exact quantityStage_trace env a m tr

/-- LIMIT and STOP_LIMIT orders always fill the limit-price field with the
supplied price, whatever it is. -/
theorem fillFields_limit_mem (env : OrderEnv) (a : OrderArgs) (m : OrderMessages)
    (tr : List OrderStep) (lv : String)
    (hpt : a.price_type = .LIMIT ∨ a.price_type = .STOP_LIMIT)
    (hlv : env.find "#tradeLimitPrice-text-input-field" = some lv) :
    OrderStep.sendNum "#tradeLimitPrice-text-input-field" a.limit_price ∈
      (fillFieldsStage env a m tr).2 := by
  simp only [fillFieldsStage, if_pos hpt, hlv]
  apply trace_mem_mono (stopFieldStage_trace env a m _)
  simp

/-- STOP and STOP_LIMIT orders always fill the stop-price field with the
supplied price, whatever it is. -/
theorem fillFields_stop_mem (env : OrderEnv) (a : OrderArgs) (m : OrderMessages)
    (tr : List OrderStep) (lv sv : String)
    (hpt : a.price_type = .STOP ∨ a.price_type = .STOP_LIMIT)
    (hlv : env.find "#tradeLimitPrice-text-input-field" = some lv)
    (hsv : env.find "#tradeStopPrice-text-input-field" = some sv) :
    OrderStep.sendNum "#tradeStopPrice-text-input-field" a.stop_price ∈
      (fillFieldsStage env a m tr).2 := by
  have hstop : ∀ tr2 : List OrderStep,
      OrderStep.sendNum "#tradeStopPrice-text-input-field" a.stop_price ∈
        (stopFieldStage env a m tr2).2 := by
    intro tr2
    simp only [stopFieldStage, if_pos hpt, hsv]
    apply trace_mem_mono (quantityStage_trace env a m _)
    simp
  rcases hpt with h | h
  · simp only [fillFieldsStage]
    rw [if_neg (by simp [h])]
    exact hstop tr
  · simp only [fillFieldsStage, if_pos (Or.inr h), hlv]
    exact hstop _

/-- A present price-type button with a compatible duration hands control to
the field-fill stage. -/
theorem priceTypeStage_valid (env : OrderEnv) (a : OrderArgs) (m : OrderMessages)
    (tr : List OrderStep) (pv : String)
    (hpt : env.find (ptSelector a.price_type) = some pv)
    (hdur : durationOk a.price_type a.duration = true) :
    priceTypeStage env a m tr =
      fillFieldsStage env a m (tr ++ [.click (ptSelector a.price_type)]) := by
  simp only [priceTypeStage, hpt]
  cases hp : a.price_type with
  | LIMIT => rfl
  | MARKET =>
    rw [hp] at hdur
    simp only [durationOk, Bool.or_eq_true, beq_iff_eq] at hdur
    dsimp only
    rw [if_pos hdur]
  | STOP =>
    rw [hp] at hdur
    simp only [durationOk, Bool.or_eq_true, beq_iff_eq] at hdur
    dsimp only
    rw [if_pos hdur]
  | STOP_LIMIT =>
    rw [hp] at hdur
    simp only [durationOk, Bool.or_eq_true, beq_iff_eq] at hdur
    dsimp only
    rw [if_pos hdur]

/-- When the page loads on the first attempt and the side and price-type
buttons exist with a compatible duration, the body reaches the field-fill
stage with the click trace below. -/
theorem place_order_body_reaches_fill (env : OrderEnv) (a : OrderArgs)
    (sv pv : String)
    (hload : env.loadOk 0 = true)
    (hside : env.find (sideSelector a.order_type) = some sv)
    (hpt : env.find (ptSelector a.price_type) = some pv)
    (hdur : durationOk a.price_type a.duration = true) :
    place_order_body env a =
      fillFieldsStage env a
        { initOrderMessages with order_invalid := "Order page loaded correctly." }
        ([.getPage order_page, .reloadPage, .findAttempt 0,
          .click (sideSelector a.order_type)] ++ [.click (ptSelector a.price_type)]) := by
  have hLoad : loadLoop env 0 4 initOrderMessages [] =
      ({ initOrderMessages with order_invalid := "Order page loaded correctly." },
       [.getPage order_page, .reloadPage, .findAttempt 0]) := by
    show loadLoop env 0 (3 + 1) initOrderMessages [] = _
    simp only [loadLoop, hload, if_true]
    rfl
  have h1 : place_order_body env a = orderSideStage env a
      { initOrderMessages with order_invalid := "Order page loaded correctly." }
      [.getPage order_page, .reloadPage, .findAttempt 0] := by
    simp only [place_order_body, hLoad, bne_self_eq_false]
    simp
  rw [h1]
  simp only [orderSideStage, hside]
  rw [priceTypeStage_valid env a _ _ pv hpt hdur]
  simp

/-- C3: the claim that a missing limit/stop price short-circuits with an
ORDER INVALID message is refuted and amended — wherever the flow reaches the
price-entry stage, the price fields are filled unconditionally with whatever
was supplied (including the absent-price default 0.0); no presence check
exists. -/
theorem price_fields_filled_unchecked (env : OrderEnv) (a : OrderArgs)
    (hload : env.loadOk 0 = true)
    (hside : (env.find (sideSelector a.order_type)).isSome = true)
    (hpt : (env.find (ptSelector a.price_type)).isSome = true)
    (hlim : (env.find "#tradeLimitPrice-text-input-field").isSome = true)
    (hstop : (env.find "#tradeStopPrice-text-input-field").isSome = true)
    (hdur : durationOk a.price_type a.duration = true) :
    (a.price_type = .LIMIT ∨ a.price_type = .STOP_LIMIT →
      OrderStep.sendNum "#tradeLimitPrice-text-input-field" a.limit_price ∈
        (place_order_body env a).2) ∧
    (a.price_type = .STOP ∨ a.price_type = .STOP_LIMIT →
      OrderStep.sendNum "#tradeStopPrice-text-input-field" a.stop_price ∈
        (place_order_body env a).2) := by
  obtain ⟨sv, hsv⟩ := Option.isSome_iff_exists.mp hside
  obtain ⟨pv, hpv⟩ := Option.isSome_iff_exists.mp hpt
  obtain ⟨lv, hlv⟩ := Option.isSome_iff_exists.mp hlim
  obtain ⟨stv, hstv⟩ := Option.isSome_iff_exists.mp hstop
  rw [place_order_body_reaches_fill env a sv pv hload hsv hpv hdur]
  exact ⟨fun hp => fillFields_limit_mem env a _ _ lv hp hlv,
         fun hp => fillFields_stop_mem env a _ _ lv stv hp hlv hstv⟩

/-- Witness for C3 at a concrete LIMIT order whose limit price was left at
the 0.0 default. -/
theorem price_fields_filled_unchecked_witness :
    OrderStep.sendNum "#tradeLimitPrice-text-input-field" 0 ∈
      (place_order_body envNoInvalidMsg argsLimitNoPrice).2 :=
  (price_fields_filled_unchecked envNoInvalidMsg argsLimitNoPrice rfl rfl rfl rfl rfl
      rfl).1 (Or.inl rfl)

/-- C3 counterexample: as stated the claim fails — a LIMIT order submitted
with the absent-price default is not rejected: place_order itself dies with
the order_page TypeError, and even the order-entry body (with that slip
elided) fills the field with 0, reaches the preview click and returns the
preview messages, never a missing-price ORDER INVALID. -/
theorem limit_price_not_validated :
    place_order_async envNoInvalidMsg argsLimitNoPrice =
      (.error .typeErr, [.getPage order_page]) ∧
    (place_order_body envNoInvalidMsg argsLimitNoPrice).1 =
      .ok { order_invalid := "No invalid order message found.", warning := "elem",
            order_preview := "elem", after_hours_warning := "",
            order_confirmation := "" } ∧
    OrderStep.sendNum "#tradeLimitPrice-text-input-field" 0 ∈
      (place_order_body envNoInvalidMsg argsLimitNoPrice).2 ∧
    OrderStep.click "#previewOrder" ∈
      (place_order_body envNoInvalidMsg argsLimitNoPrice).2 := by
  refine ⟨rfl, rfl, ?_, ?_⟩ <;> decide

/-- C1: the claim describes the duration-validation short-circuit, and the
validation code (order.py lines 175-198) does return exactly the claimed
dictionary with no preview/submit/confirmation interaction — but it is dead
code: as written, every place_order call raises TypeError at order.py line
131 (order_page(account_id) with a zero-parameter order_page) before the
retry loop's try block, so the claimed return never happens. -/
theorem market_gtc_order_divergence :
    place_order_async envAllFound argsMarketGtc =
      (.error .typeErr, [.getPage order_page]) ∧
    place_order_body envAllFound argsMarketGtc =
      (.ok { initOrderMessages with
             order_invalid := "Market orders must be DAY or ON THE CLOSE." },
       [.getPage order_page, .reloadPage, .findAttempt 0,
        .click (sideSelector .BUY), .click (ptSelector .MARKET)]) ∧
    OrderStep.click "#previewOrder" ∉ (place_order_body envAllFound argsMarketGtc).2 ∧
    OrderStep.click "#submitOrder" ∉ (place_order_body envAllFound argsMarketGtc).2 := by
  refine ⟨rfl, rfl, ?_, ?_⟩ <;> decide

/-- C2: when the landing page is not reached within the 60 one-second polls,
_login_two_async does raise a TimeoutError internally (line 356), but the
blanket except of lines 358-362 catches it, closes the browser and returns
False — the caller receives a normal value, not a raised login-timeout
error, contradicting the claim and the method's own docstring. -/
theorem login_two_timeout_swallowed :
    login_two_inner envLoginTwoNoLanding =
      .error (.timeout
        "Failed to login to Chase. Landing page not reached after 60 seconds.") ∧
    login_two envLoginTwoNoLanding = (false, true) :=
  ⟨rfl, rfl⟩

/-- C4 (amended): an unrecognized terminal page state makes login raise an
error with the fixed message below — which does not include the unrecognized
state — and every login error (this one included) closes the browser before
the wrapped error is re-raised, so no automation handle is leaked. -/
theorem login_unknown_state_error (env : LoginEnv) (last_four : Nat)
    (h1 : (env.find "#userId-input-field-input").isSome = true)
    (h2 : (env.find "#password-input-field-input").isSome = true)
    (h3 : (env.find "#signin-button").isSome = true)
    (h4 : strContains env.urlAfterSignin landing_page = false)
    (h5 : env.find "#optionsList" = none)
    (h6 : env.find "#header-simplerAuth-dropdownoptions-styledselect" = none)
    (h7 : strContains env.urlAtOptOut opt_out_verification_page = false)
    (h8 : strContains env.urlAtFinal landing_page = false) :
    (login_async env last_four).1 =
      (.error (.exc "Error in first step of login into Chase: Login failed due to an unknown page state."),
       true) ∧
    (∀ (env2 : LoginEnv) (lf : Nat) (e : PyErr) (c : Bool) (tr : List LoginStep),
      login_async env2 lf = ((.error e, c), tr) → c = true) := by
  constructor
  · obtain ⟨u1, hu1⟩ := Option.isSome_iff_exists.mp h1
    obtain ⟨u2, hu2⟩ := Option.isSome_iff_exists.mp h2
    obtain ⟨u3, hu3⟩ := Option.isSome_iff_exists.mp h3
    have hinner : login_async_inner env last_four =
        (.error (.exc "Login failed due to an unknown page state."),
         [LoginStep.clickSel "#signin-button"]) := by
      simp only [login_async_inner, hu1, hu2, hu3, h4, h5]
      simp only [oldTwoFaStage, h6, optOutStage, h7, h8]
      simp
    simp only [login_async, hinner, pyErrStr]
    rfl
  · intro env2 lf e c tr h
    unfold login_async at h
    cases hi : login_async_inner env2 lf with
    | mk r tr2 =>
      rw [hi] at h
      cases r with
      | ok b => simp at h
      | error e2 =>
        simp only [Prod.mk.injEq] at h
        exact h.1.2.symm

/-- Witness for C4: the unknown-state environment produces exactly the fixed
wrapped error with the browser closed. -/
theorem login_unknown_state_error_witness :
    (login_async envUnknownState 7777).1 =
      (.error (.exc "Error in first step of login into Chase: Login failed due to an unknown page state."),
       true) :=
  (login_unknown_state_error envUnknownState 7777 rfl rfl rfl (by decide) rfl rfl
    (by decide) (by decide)).1

/-- C4 counterexample: the flow ends on the unrecognized page
"https://evil.example/unknown-state-xyz", and the raised error's message is
a fixed text that contains neither that state nor any part of it — the error
does not carry the unrecognized state. -/
theorem login_error_lacks_state :
    (login_async envUnknownState 1234).1 =
      (.error (.exc "Error in first step of login into Chase: Login failed due to an unknown page state."),
       true) ∧
    strContains
      "Error in first step of login into Chase: Login failed due to an unknown page state."
      "unknown-state-xyz" = false ∧
    strContains
      "Error in first step of login into Chase: Login failed due to an unknown page state."
      envUnknownState.urlAtFinal = false := by
  refine ⟨rfl, ?_, ?_⟩ <;> decide

/-- A push poll that sees the landing URL within its window reports login
complete. -/
theorem pushPoll_finds (env : LoginEnv) :
    ∀ fuel t : Nat,
    (∃ k, k < fuel ∧ strContains (env.pollUrl (t + k)) landing_page = true) →
    pushPoll env t fuel = some false := by
  intro fuel
  induction fuel with
  | zero => rintro t ⟨k, hk, _⟩; omega
  | succ n ih =>
    rintro t ⟨k, hk, hc⟩
    by_cases h : strContains (env.pollUrl t) landing_page = true
    · simp [pushPoll, h]
    · have hk0 : k ≠ 0 := fun h0 => h (by simpa [h0] using hc)
      have hstep : pushPoll env t (n + 1) = pushPoll env (t + 1) n := by
        rw [show pushPoll env t (n + 1) =
            (if strContains (env.pollUrl t) landing_page = true then some false
             else pushPoll env (t + 1) n) from rfl,
          if_neg h]
      rw [hstep]
      refine ih (t + 1) ⟨k - 1, by omega, ?_⟩
      have heq : t + 1 + (k - 1) = t + k := by omega
      rw [heq]
      exact hc

/-- A push poll that never sees the landing URL within its window expires. -/
theorem pushPoll_expires (env : LoginEnv) :
    ∀ fuel t : Nat,
    (∀ k, k < fuel → strContains (env.pollUrl (t + k)) landing_page = false) →
    pushPoll env t fuel = none := by
  intro fuel
  induction fuel with
  | zero => intro t _; rfl
  | succ n ih =>
    intro t hall
    have h0 : strContains (env.pollUrl t) landing_page = false := by
      simpa using hall 0 (Nat.succ_pos n)
    rw [show pushPoll env t (n + 1) =
        (if strContains (env.pollUrl t) landing_page = true then some false
         else pushPoll env (t + 1) n) from rfl,
      h0, if_neg Bool.false_ne_true]
    refine ih (t + 1) fun k hk => ?_
    have heq : t + 1 + k = t + (k + 1) := by omega
    rw [heq]
    exact hall (k + 1) (by omega)

/-- C6 (amended): with a push challenge detected, login polls up to 120
ticks and returns False (no code needed) as soon as the landing URL appears;
when the window expires it does not raise a timeout error — it falls through
to the SMS flow, and when no further challenge or landing state appears it
ends with the generic unknown-page-state error. -/
theorem push_poll_behavior (env : LoginEnv) (last_four : Nat)
    (h1 : (env.find "#userId-input-field-input").isSome = true)
    (h2 : (env.find "#password-input-field-input").isSome = true)
    (h3 : (env.find "#signin-button").isSome = true)
    (h4 : strContains env.urlAfterSignin landing_page = false)
    (h5 : (env.find "#optionsList").isSome = true)
    (h6 : (env.find "text=approve").isSome = true) :
    ((∃ k, k < 120 ∧ strContains (env.pollUrl k) landing_page = true) →
      (login_async env last_four).1 = (.ok false, false)) ∧
    ((∀ k, k < 120 → strContains (env.pollUrl k) landing_page = false) →
      env.find "mds-radio-group" = none →
      strContains env.urlAtOptOut opt_out_verification_page = false →
      strContains env.urlAtFinal landing_page = false →
      (login_async env last_four).1 =
        (.error (.exc "Error in first step of login into Chase: Login failed due to an unknown page state."),
         true) ∧
      isTimeoutErr (login_async env last_four).1.1 = false) := by
  obtain ⟨u1, hu1⟩ := Option.isSome_iff_exists.mp h1
  obtain ⟨u2, hu2⟩ := Option.isSome_iff_exists.mp h2
  obtain ⟨u3, hu3⟩ := Option.isSome_iff_exists.mp h3
  obtain ⟨u5, hu5⟩ := Option.isSome_iff_exists.mp h5
  obtain ⟨u6, hu6⟩ := Option.isSome_iff_exists.mp h6
  have hpre : ∀ tr : List LoginStep, login_async_inner env last_four =
      newTwoFaStage env last_four [LoginStep.clickSel "#signin-button"] := by
    intro tr
    simp only [login_async_inner, hu1, hu2, hu3, h4, hu5]
    simp
  constructor
  · rintro ⟨k, hk, hc⟩
    have hpoll : pushPoll env 0 120 = some false :=
      pushPoll_finds env 120 0 ⟨k, hk, by simpa using hc⟩
    have hinner : (login_async_inner env last_four).1 = .ok false := by
      rw [hpre []]
      simp only [newTwoFaStage, hu6, hpoll]
    cases hi : login_async_inner env last_four with
    | mk r tr =>
      rw [hi] at hinner
      simp only at hinner
      subst hinner
      simp [login_async, hi]
  · intro hnone hr h7 h8
    have hpoll : pushPoll env 0 120 = none :=
      pushPoll_expires env 120 0 fun k hk => by simpa using hnone k hk
    have hinner : login_async_inner env last_four =
        smsStage env last_four
          ([LoginStep.clickSel "#signin-button"] ++
           (match shadowLoop env.shadowLabels with
            | some t => [LoginStep.clickShadowOption t]
            | none => [])) := by
      rw [hpre []]
      simp only [newTwoFaStage, hu6, hpoll]
    have hsms : ∀ tr : List LoginStep, smsStage env last_four tr =
        (.error (.exc "Login failed due to an unknown page state."), tr) := by
      intro tr
      simp only [smsStage, hr, optOutStage, h7, h8]
      simp
    rw [show (login_async env last_four) =
        (match login_async_inner env last_four with
         | (.ok b, tr) => ((Except.ok b, false), tr)
         | (.error e, tr) =>
           ((Except.error (.exc ("Error in first step of login into Chase: " ++ pyErrStr e)),
             true), tr)) from rfl,
      hinner, hsms]
    exact ⟨rfl, rfl⟩

/-- Witness for C6: a stubbed push approval that lands at the first poll
tick makes login return False (no 2FA code needed). -/
theorem push_poll_behavior_witness :
    (login_async envPushApproved 1234).1 = (.ok false, false) :=
  (push_poll_behavior envPushApproved 1234 rfl rfl rfl (by decide) rfl rfl).1
    ⟨0, by omega, by decide⟩

/-- C6 counterexample: a push challenge never approved — after the 120-tick
window expires, login does not raise a timeout error; it falls through to
the SMS flow and ends with the generic unknown-page-state error. -/
theorem push_expiry_no_timeout_error :
    (login_async envPushNeverApproved 1234).1 =
      (.error (.exc "Error in first step of login into Chase: Login failed due to an unknown page state."),
       true) ∧
    isTimeoutErr (login_async envPushNeverApproved 1234).1.1 = false :=
  ⟨rfl, rfl⟩

/-- radioSelections distributes over trace concatenation. -/
theorem radioSelections_append (xs ys : List LoginStep) :
    radioSelections (xs ++ ys) = radioSelections xs ++ radioSelections ys := by
  induction xs with
  | nil => rfl
  | cons x rest ih =>
    cases x <;> simp [radioSelections, ih]

/-- The radio scan selects the first matching option; with a unique match it
selects exactly that one, recording its index offset by the start index. -/
theorem radioLoop_first (last_four : Nat) :
    ∀ (bs : List Json) (i k : Nat) (hk : k < bs.length),
    (∀ b ∈ bs, ∃ fields lbl, b = .obj fields ∧ jsonGetD b "label" (.str "") = .str lbl) →
    radioMatches last_four (bs.get ⟨k, hk⟩) = true →
    (∀ j (hj : j < bs.length), radioMatches last_four (bs.get ⟨j, hj⟩) = true → j = k) →
    ∃ lbl, radioLoop last_four bs i = .ok [.selectRadio (i + k) lbl] ∧
      strContains lbl ("xxx-xxx-" ++ toString last_four) = true := by
  intro bs
  induction bs with
  | nil => intro i k hk; exact absurd hk (by simp)
  | cons b rest ih =>
    intro i k hk hwf hm hu
    obtain ⟨fields, lbl0, hobj, hlbl⟩ := hwf b (List.mem_cons_self _ _)
    subst hobj
    by_cases hb : radioMatches last_four (.obj fields) = true
    · have hk0 : 0 = k := hu 0 (Nat.succ_pos _) (by simpa using hb)
      subst hk0
      have hcont : strContains lbl0 ("xxx-xxx-" ++ toString last_four) = true := by
        unfold radioMatches at hb
        rw [hlbl] at hb
        exact hb
      refine ⟨lbl0, ?_, hcont⟩
      simp only [radioLoop]
      rw [hlbl]
      dsimp only
      rw [if_pos hcont, Nat.add_zero]
    · have hcont : strContains lbl0 ("xxx-xxx-" ++ toString last_four) = false := by
        unfold radioMatches at hb
        rw [hlbl] at hb
        exact Bool.not_eq_true _ ▸ Bool.of_not_eq_true hb
      match k, hk with
      | 0, hk => exact absurd (by simpa using hm) hb
      | k' + 1, hk =>
        have hk' : k' < rest.length := by
          simp only [List.length_cons] at hk
          omega
        have hm' : radioMatches last_four (rest.get ⟨k', hk'⟩) = true := by
          simpa using hm
        have hu' : ∀ j (hj : j < rest.length),
            radioMatches last_four (rest.get ⟨j, hj⟩) = true → j = k' := by
          intro j hj hmj
          have := hu (j + 1) (by simpa using Nat.succ_lt_succ hj) (by simpa using hmj)
          omega
        obtain ⟨lbl, heq, hc⟩ := ih (i + 1) k' hk'
          (fun b2 hb2 => hwf b2 (List.mem_cons_of_mem _ hb2)) hm' hu'
        refine ⟨lbl, ?_, hc⟩
        simp only [radioLoop]
        rw [hlbl]
        dsimp only
        rw [if_neg (by rw [hcont]; exact Bool.false_ne_true)]
        rw [heq]
        have : i + 1 + k' = i + (k' + 1) := by omega
        rw [this]

/-- C7: with an SMS challenge offering several phone-suffix options of which
exactly one matches the caller's last four digits, login selects precisely
that option (and no other), clicks next, and returns True — control goes
back to the caller in the two-factor-pending state. -/
theorem sms_selects_matching_option (env : LoginEnv) (last_four : Nat)
    (bs : List Json) (k : Nat) (hk : k < bs.length)
    (h1 : (env.find "#userId-input-field-input").isSome = true)
    (h2 : (env.find "#password-input-field-input").isSome = true)
    (h3 : (env.find "#signin-button").isSome = true)
    (h4 : strContains env.urlAfterSignin landing_page = false)
    (h5 : (env.find "#optionsList").isSome = true)
    (h6 : env.find "text=approve" = none)
    (h7 : (env.find "mds-radio-group").isSome = true)
    (h8 : env.radioJson = some (.arr bs))
    (h9 : (env.find "#next-content").isSome = true)
    (hwf : ∀ b ∈ bs, ∃ fields lbl, b = .obj fields ∧
      jsonGetD b "label" (.str "") = .str lbl)
    (hm : radioMatches last_four (bs.get ⟨k, hk⟩) = true)
    (hu : ∀ j (hj : j < bs.length),
      radioMatches last_four (bs.get ⟨j, hj⟩) = true → j = k) :
    (login_async env last_four).1 = (.ok true, false) ∧
    ∃ lbl, radioSelections (login_async env last_four).2 = [(k, lbl)] ∧
      strContains lbl ("xxx-xxx-" ++ toString last_four) = true := by
  obtain ⟨u1, hu1⟩ := Option.isSome_iff_exists.mp h1
  obtain ⟨u2, hu2⟩ := Option.isSome_iff_exists.mp h2
  obtain ⟨u3, hu3⟩ := Option.isSome_iff_exists.mp h3
  obtain ⟨u5, hu5⟩ := Option.isSome_iff_exists.mp h5
  obtain ⟨u7, hu7⟩ := Option.isSome_iff_exists.mp h7
  obtain ⟨u9, hu9⟩ := Option.isSome_iff_exists.mp h9
  obtain ⟨lbl, heq, hc⟩ := radioLoop_first last_four bs 0 k hk hwf hm hu
  rw [Nat.zero_add] at heq
  have hinner : login_async_inner env last_four =
      (.ok true,
       (([LoginStep.clickSel "#signin-button"] ++
         (match shadowLoop env.shadowLabels with
          | some t => [LoginStep.clickShadowOption t]
          | none => [])) ++ [LoginStep.selectRadio k lbl]) ++
       [LoginStep.clickSel "#next-content"]) := by
    simp only [login_async_inner, hu1, hu2, hu3, h4, hu5]
    simp only [newTwoFaStage, h6, smsStage, hu7, h8, heq, hu9]
    simp
  refine ⟨by simp [login_async, hinner], ⟨lbl, ?_, hc⟩⟩
  rw [show (login_async env last_four).2 = (login_async_inner env last_four).2 from ?_]
  · rw [hinner]
    simp only [radioSelections_append]
    cases shadowLoop env.shadowLabels <;> simp [radioSelections]
  · unfold login_async
    cases hi : login_async_inner env last_four with
    | mk r tr => cases r <;> rfl

/-- Witness for C7: two suffix options, of which only xxx-xxx-2222 matches
last four 2222; login selects index 1 only and returns True. -/
theorem sms_selects_matching_option_witness :
    (login_async envSmsTwoOptions 2222).1 = (.ok true, false) ∧
    ∃ lbl, radioSelections (login_async envSmsTwoOptions 2222).2 = [(1, lbl)] ∧
      strContains lbl ("xxx-xxx-" ++ toString 2222) = true :=
  sms_selects_matching_option envSmsTwoOptions 2222
    [.obj [("label", .str "xxx-xxx-1111")], .obj [("label", .str "xxx-xxx-2222")]] 1
    (by simp) rfl rfl rfl (by decide) rfl rfl rfl rfl rfl
    (by
      intro b hb
      simp only [List.mem_cons, List.not_mem_nil, or_false] at hb
      rcases hb with rfl | rfl
      · exact ⟨[("label", .str "xxx-xxx-1111")], "xxx-xxx-1111", rfl, rfl⟩
      · exact ⟨[("label", .str "xxx-xxx-2222")], "xxx-xxx-2222", rfl, rfl⟩)
    (by decide)
    (by decide)
